import Mathlib

/-!
Verification of the FitVercel food-scan API handlers
(`src/api/food-scan/health.js`: a health handler and a scan handler).

The JavaScript source is shallowly embedded below.  Timestamps
(`Date.now()` values) are modelled as `Int`, request counts as `Nat`.
The in-memory rate-limit `Map` is modelled as an association list in
insertion order, matching JS `Map` iteration/insertion semantics
(keys are unique in a real `Map`; lemmas that need uniqueness take a
`Nodup` hypothesis on the keys).
-/

/-- `RATE_LIMIT_WINDOW = 60 * 1000` (one minute, in milliseconds). -/
def RATE_LIMIT_WINDOW : Int := 60 * 1000

/-- `RATE_LIMIT_MAX_REQUESTS = 10`. -/
def RATE_LIMIT_MAX_REQUESTS : Nat := 10

/-- One value of the rate-limit `Map`: `{ windowStart, count }`. -/
structure RateLimitEntry where
  windowStart : Int
  count : Nat
deriving DecidableEq

/-- The rate-limit store: a JS `Map` from client IP to entry, in insertion
order. -/
abbrev RateLimitStore := List (String × RateLimitEntry)

/-- `rateLimitStore.get(ip)` - first (in a real `Map`, only) binding of `ip`. -/
def rlGet : RateLimitStore → String → Option RateLimitEntry
  | [], _ => none
  | p :: t, ip => if p.1 = ip then some p.2 else rlGet t ip

/-- `rateLimitStore.set(ip, e)` - replace the binding in place if the key is
present (a JS `Map` keeps the original insertion position), else append. -/
def rlSet : RateLimitStore → String → RateLimitEntry → RateLimitStore
  | [], ip, e => [(ip, e)]
  | p :: t, ip, e => if p.1 = ip then (ip, e) :: t else p :: rlSet t ip e

/-- `cleanupRateLimitStore()`: delete every entry with
`now - data.windowStart > RATE_LIMIT_WINDOW`. -/
def cleanupRateLimitStore (now : Int) : RateLimitStore → RateLimitStore
  | [] => []
  | p :: t =>
    if now - p.2.windowStart > RATE_LIMIT_WINDOW then
      cleanupRateLimitStore now t
    else
      p :: cleanupRateLimitStore now t

/-- `isRateLimited(ip)`: returns the boolean result of the source function
together with the store it leaves behind (the JS function mutates the
module-level `rateLimitStore`). -/
def isRateLimited (now : Int) (ip : String) (store : RateLimitStore) :
    Bool × RateLimitStore :=
  let store1 := cleanupRateLimitStore now store
  match rlGet store1 ip with
  | none => (false, rlSet store1 ip ⟨now, 1⟩)
  | some clientData =>
    if now - clientData.windowStart < RATE_LIMIT_WINDOW then
      if clientData.count ≥ RATE_LIMIT_MAX_REQUESTS then
        (true, store1)
      else
        (false, rlSet store1 ip ⟨clientData.windowStart, clientData.count + 1⟩)
    else
      (false, rlSet store1 ip ⟨now, 1⟩)

/-- One call against the module-level rate-limit state: either a call to
`isRateLimited` for an ip at a timestamp, or a bare `cleanupRateLimitStore`. -/
inductive RLOp where
  | limit (now : Int) (ip : String)
  | cleanup (now : Int)

/-- Effect of one `RLOp` on the store. -/
def applyRLOp (s : RateLimitStore) : RLOp → RateLimitStore
  | .limit now ip => (isRateLimited now ip s).2
  | .cleanup now => cleanupRateLimitStore now s

/-- Invariant of the rate-limit table: every stored count is between 1 and
`RATE_LIMIT_MAX_REQUESTS`. -/
def countsBounded (s : RateLimitStore) : Prop :=
  ∀ p ∈ s, 1 ≤ p.2.count ∧ p.2.count ≤ RATE_LIMIT_MAX_REQUESTS

/-! ### Generic string helpers (JS semantics) -/

/-- Does the second list start with the first? -/
def listHasPre : List Char → List Char → Bool
  | [], _ => true
  | _ :: _, [] => false
  | p :: ps, c :: cs => p = c && listHasPre ps cs

/-- Does the second list contain the first as a contiguous run? -/
def listContains (pat : List Char) : List Char → Bool
  | [] => listHasPre pat []
  | c :: cs => listHasPre pat (c :: cs) || listContains pat cs

/-- JS `s.includes(pat)`. -/
def strContains (s pat : String) : Bool :=
  listContains pat.toList s.toList

/-- JS `a || b` where `a` is an optional string (`undefined` or a string):
the empty string is falsy. -/
def jsOrStr (o : Option String) (b : String) : String :=
  match o with
  | some s => if s = "" then b else s
  | none => b

/-- JS truthiness of an optional string (`Boolean(x)` for
`x : string | undefined`). -/
def jsTruthyStr (o : Option String) : Bool :=
  match o with
  | some s => decide (s ≠ "")
  | none => false

/-! ### Requests and responses -/

/-- The parts of the incoming HTTP request that the two handlers read.
Body fields are `Option` because a JSON body may omit them. -/
structure Request where
  method : String
  xForwardedFor : Option String
  xRealIp : Option String
  remoteAddress : Option String
  imageBase64 : Option String
  mimeType : Option String

/-- `getClientIp(req)`. -/
def getClientIp (req : Request) : String :=
  jsOrStr (req.xForwardedFor.map (fun s => ((s.splitOn ",").headD "").trim))
    (jsOrStr req.xRealIp (jsOrStr req.remoteAddress "unknown"))

/-! ### Input validation -/

/-- Character class `[a-zA-Z+]` of the data-URL regex. -/
def isSubtypeChar (c : Char) : Bool :=
  ('a' ≤ c && c ≤ 'z') || ('A' ≤ c && c ≤ 'Z') || c = '+'

/-- The characters that JS regex `.` does not match (line terminators). -/
def isLineTerm (c : Char) : Bool :=
  c = '\n' || c = '\r' || c = Char.ofNat 0x2028 || c = Char.ofNat 0x2029

/-- The standard base64 alphabet (with padding): the characters a base64
payload may consist of.  Used to state the amended form of the
data-URL/raw equivalence claim. -/
def isBase64Char (c : Char) : Bool :=
  ('A' ≤ c && c ≤ 'Z') || ('a' ≤ c && c ≤ 'z') || ('0' ≤ c && c ≤ '9') ||
    c = '+' || c = '/' || c = '='

/-- Result of matching `/^data:image\/[a-zA-Z+]+;base64,(.+)$/` against `s`:
the captured payload when the regex matches.  The subtype run is maximal and
anchored by the following `;`, so backtracking cannot produce another match;
`(.+)$` requires a nonempty payload free of line terminators. -/
def dataUrlCapture (s : String) : Option String :=
  let cs := s.toList
  if listHasPre "data:image/".toList cs then
    let rest := cs.drop 11
    let sub := rest.takeWhile isSubtypeChar
    let rest2 := rest.drop sub.length
    if sub.length > 0 && listHasPre ";base64,".toList rest2 then
      let payload := rest2.drop 8
      if payload.length > 0 && payload.all (fun c => !isLineTerm c) then
        some (String.mk payload)
      else none
    else none
  else none

/-- `stripDataUrlPrefix(imageBase64)`. -/
def stripDataUrlPre (imageBase64 : Option String) : String :=
  match imageBase64 with
  | none => ""
  | some s =>
    if s = "" then ""
    else
      match dataUrlCapture s with
      | some payload => payload
      | none => s

/-- `allowedMimeTypes` from `validateImagePayload`. -/
def allowedMimeTypes : List String := ["image/jpeg", "image/png"]

/-- Return value of `validateImagePayload`. -/
structure ValidationResult where
  valid : Bool
  errors : List String
  cleanBase64 : String
deriving DecidableEq

/-- `validateImagePayload(imageBase64, mimeType)`.  The size estimate
`(cleanBase64.length * 3) / 4` is exact rational arithmetic; for the operand
sizes involved the JS float division is exact as well. -/
def validateImagePayload (imageBase64 mimeType : Option String) : ValidationResult :=
  let errors : List String := []
  let errors :=
    if !jsTruthyStr mimeType || !(allowedMimeTypes.contains (mimeType.getD "")) then
      errors ++ ["Invalid mimeType. Allowed: " ++ String.intercalate ", " allowedMimeTypes]
    else errors
  let errors :=
    if !jsTruthyStr imageBase64 then errors ++ ["imageBase64 is required"] else errors
  let cleanBase64 := stripDataUrlPre imageBase64
  let estimatedSizeBytes : ℚ := (cleanBase64.length * 3 : ℚ) / 4
  let maxSizeBytes : ℚ := 10 * 1024 * 1024
  let errors :=
    if estimatedSizeBytes > maxSizeBytes then
      errors ++ ["Image too large. Max size: 10MB"]
    else errors
  ⟨errors.isEmpty, errors, cleanBase64⟩

/-! ### JSON values and JS property access -/

/-- JSON values (numbers as exact rationals; nothing in the code depends on
float rounding). -/
inductive Json where
  | null
  | bool (b : Bool)
  | num (q : ℚ)
  | str (s : String)
  | arr (xs : List Json)
  | obj (fields : List (String × Json))

/-- Field lookup in a JSON object (first binding; parsed JSON objects have
unique keys). -/
def getField : List (String × Json) → String → Option Json
  | [], _ => none
  | p :: t, k => if p.1 = k then some p.2 else getField t k

/-- JS property assignment `o.k = v` on an object: overwrite in place, or
append a new property. -/
def setField : List (String × Json) → String → Json → List (String × Json)
  | [], k, v => [(k, v)]
  | p :: t, k, v => if p.1 = k then (k, v) :: t else p :: setField t k v

/-- `Array.isArray(o.k)`. -/
def isArrayField (fs : List (String × Json)) (k : String) : Bool :=
  match getField fs k with
  | some (Json.arr _) => true
  | _ => false

/-- JS truthiness of a JSON value. -/
def jsTruthy : Json → Bool
  | Json.null => false
  | Json.bool b => b
  | Json.num q => decide (q ≠ 0)
  | Json.str s => decide (s ≠ "")
  | Json.arr _ => true
  | Json.obj _ => true

/-- JS truthiness of a possibly-`undefined` JSON value. -/
def jsTruthyOpt (o : Option Json) : Bool :=
  match o with
  | some j => jsTruthy j
  | none => false

/-- JS property read `j.k` on a value that is not `null`/`undefined`:
objects have their fields, arrays and strings expose `length`, other
primitives have no own properties (`undefined`). -/
def jsPropPure (j : Json) (k : String) : Option Json :=
  match j with
  | Json.obj fs => getField fs k
  | Json.arr xs => if k = "length" then some (Json.num (xs.length : ℚ)) else none
  | Json.str s => if k = "length" then some (Json.num (s.length : ℚ)) else none
  | _ => none

/-- JS property read `j.k` where `j` may be `null` (a `TypeError` in JS,
modelled as the thrown message).  `response.json()` never yields
`undefined`, so `null` is the only throwing case. -/
def jsProp (j : Json) (k : String) : Except String (Option Json) :=
  match j with
  | Json.null => .error "Cannot read properties of null"
  | j => .ok (jsPropPure j k)

/-- JS optional chaining `o?.k`. -/
def jsOptProp (o : Option Json) (k : String) : Option Json :=
  match o with
  | none => none
  | some Json.null => none
  | some j => jsPropPure j k

/-- JS index read `j[i]`: array element, string character, or the
numeric-string property of an object. -/
def jsIndex (j : Json) (i : Nat) : Option Json :=
  match j with
  | Json.arr xs => xs.get? i
  | Json.str s => (s.toList.get? i).map (fun c => Json.str (String.mk [c]))
  | Json.obj fs => getField fs (toString i)
  | _ => none

/-- JS `j.length` for a truthy value `j`. -/
def jsLength : Json → Option Json
  | Json.arr xs => some (Json.num (xs.length : ℚ))
  | Json.str s => some (Json.num (s.length : ℚ))
  | Json.obj fs => getField fs "length"
  | _ => none

/-- JS `j.length === 0`. -/
def jsLenEqZero (o : Option Json) : Bool :=
  match o with
  | some j =>
    match jsLength j with
    | some (Json.num q) => decide (q = 0)
    | _ => false
  | none => false

/-- JS `o || ''` for an optional JSON value. -/
def jsOrEmptyStr (o : Option Json) : Json :=
  match o with
  | some j => if jsTruthy j then j else Json.str ""
  | none => Json.str ""

/-! ### Markdown fence stripping and JSON extraction -/

/-- JS regex `\s` (the whitespace characters that matter here). -/
def isJsSpace (c : Char) : Bool :=
  c = ' ' || c = '\t' || c = '\n' || c = '\r' || c = Char.ofNat 12 || c = Char.ofNat 11

/-- One global-replace pass of `/TOK\s*/g` with the empty replacement,
where `TOK` is the literal token `t :: ts`: scan left to right, and on a
match resume after the removed token and whitespace (as the regex
`lastIndex` does). -/
def stripTokenWs (t : Char) (ts : List Char) : List Char → List Char
  | [] => []
  | c :: cs =>
    if listHasPre (t :: ts) (c :: cs) then
      stripTokenWs t ts ((cs.drop ts.length).dropWhile isJsSpace)
    else
      c :: stripTokenWs t ts cs
termination_by l => l.length
decreasing_by
  · have h1 := (List.dropWhile_sublist (l := cs.drop ts.length) isJsSpace).length_le
    have h2 : (cs.drop ts.length).length ≤ cs.length := by
      simp [List.length_drop]
    simp only [List.length_cons]
    omega
  · simp [List.length_cons]

/-- The two `replace` passes that strip Markdown code fences: first the
token "triple backtick followed by json", then the bare triple backtick,
each together with the trailing whitespace run. -/
def stripCodeFences (s : String) : String :=
  let bt := Char.ofNat 96
  let pass1 := stripTokenWs bt ("``json".toList) s.toList
  let pass2 := stripTokenWs bt ("``".toList) pass1
  String.mk pass2

/-- Index of the first occurrence of `c`. -/
def firstIdxOf (c : Char) : List Char → Option Nat
  | [] => none
  | x :: xs => if x = c then some 0 else (firstIdxOf c xs).map (· + 1)

/-- Index of the last occurrence of `c`. -/
def lastIdxOf (c : Char) (cs : List Char) : Option Nat :=
  (firstIdxOf c cs.reverse).map (fun k => cs.length - 1 - k)

/-- `textContent.match(/\x7b[\s\S]*\x7d/)`: the leftmost, greedy match runs
from the first opening brace that precedes the last closing brace up to that
last closing brace. -/
def jsonSpan (s : String) : Option String :=
  let cs := s.toList
  match lastIdxOf '\x7d' cs with
  | none => none
  | some j =>
    match firstIdxOf '\x7b' (cs.take j) with
    | none => none
    | some i => some (String.mk ((cs.take (j + 1)).drop i))

/-! ### Upstream call and response normalization -/

/-- JS `text.substring(0, n)`. -/
def jsSubstring (s : String) (n : Nat) : String :=
  String.mk (s.toList.take n)

/-- The message of the error thrown by `callGeminiVision` on a non-ok
upstream status: carries the status code and a body excerpt truncated to
200 characters. -/
def geminiErrorMessage (status : Nat) (bodyText : String) : String :=
  "Gemini API error (" ++ toString status ++ "): " ++ jsSubstring bodyText 200

/-- Outcome of the `fetch` to the Gemini endpoint, as observed by the
handler: a parsed JSON body on an ok status, a non-ok status with its body
text, or a thrown error (network failure, body-read failure, ...). -/
inductive UpstreamOutcome where
  | ok (body : Json)
  | httpError (status : Nat) (bodyText : String)
  | thrown (msg : String)

/-- `callGeminiVision`, reduced to its error contract: the prompt, URL and
generation parameters it builds do not influence any claim, so only the
ok/throw behaviour is modelled. -/
def callGeminiVision (outcome : UpstreamOutcome) : Except String Json :=
  match outcome with
  | .ok body => .ok body
  | .httpError status bodyText => .error (geminiErrorMessage status bodyText)
  | .thrown msg => .error msg

/-- The `try` block of `parseGeminiResponse`, with `JSON.parse` supplied as
a parameter `jparse`.  `JSON.parse` is applied only to text that starts with
an opening brace, so a successful parse always yields an object; `jparse`
returns its field list.  A truthy non-string `parts[0]?.text` makes the
`.replace` call throw a `TypeError`, modelled by its message. -/
def parseGeminiResponseCore
    (jparse : String → Except String (List (String × Json)))
    (geminiResponse : Json) : Except String (List (String × Json)) :=
  match jsProp geminiResponse "candidates" with
  | .error e => .error e
  | .ok candidates =>
    if !jsTruthyOpt candidates || jsLenEqZero candidates then
      .error "No candidates in Gemini response"
    else
      let parts :=
        jsOptProp (jsOptProp (jsIndex (candidates.getD Json.null) 0) "content") "parts"
      if !jsTruthyOpt parts || jsLenEqZero parts then
        .error "No parts in Gemini response"
      else
        match jsOrEmptyStr (jsOptProp (jsIndex (parts.getD Json.null) 0) "text") with
        | Json.str rawText =>
          let textContent := stripCodeFences rawText
          match jsonSpan textContent with
          | none => .error "No JSON object found in response"
          | some jsonText =>
            match jparse jsonText with
            | .error e => .error e
            | .ok fields =>
              let fields :=
                if (getField fields "detected").isNone then
                  setField fields "detected" (Json.bool true)
                else fields
              let fields :=
                if !isArrayField fields "items" then
                  setField fields "items" (Json.arr [])
                else fields
              .ok fields
        | _ => .error "textContent.replace is not a function"

/-- `notes` string of the fallback result. -/
def fallbackNotes : String := "Model returned non-JSON output; please confirm manually."

/-- The fallback result built in the `catch` of `parseGeminiResponse`. -/
def geminiFallback (msg : String) : Json :=
  Json.obj [("detected", Json.bool true), ("items", Json.arr []),
    ("notes", Json.str fallbackNotes), ("parseError", Json.str msg)]

/-- `parseGeminiResponse`: the `try` body with the `catch` fallback; total,
never raises. -/
def parseGeminiResponse (jparse : String → Except String (List (String × Json)))
    (geminiResponse : Json) : Json :=
  match parseGeminiResponseCore jparse geminiResponse with
  | .ok fields => Json.obj fields
  | .error e => geminiFallback e

/-! ### The two handlers -/

/-- `ALLOWED_ORIGIN` (same constant in both source files). -/
def ALLOWED_ORIGIN : String := "https://eray464646.github.io"

/-- Body of an HTTP response, by shape. -/
inductive ResponseBody where
  | errorBody (error : String) (message : Option String)
  | errorDetails (error : String) (details : List String)
  | health (ok : Bool) (provider : String) (configured : Bool)
  | scan (result : Json)

/-- An HTTP response: status, headers in the order they were set, and an
optional JSON body (`none` for `res.end()`). -/
structure Response where
  status : Nat
  headers : List (String × String)
  body : Option ResponseBody

/-- Headers set by `setCorsHeaders` in the health endpoint. -/
def healthCorsHeaders : List (String × String) :=
  [("Access-Control-Allow-Origin", ALLOWED_ORIGIN),
   ("Access-Control-Allow-Methods", "GET, OPTIONS"),
   ("Access-Control-Allow-Headers", "Content-Type, Authorization"),
   ("Vary", "Origin")]

/-- Headers set by `setCorsHeaders` in the scan endpoint. -/
def scanCorsHeaders : List (String × String) :=
  [("Access-Control-Allow-Origin", ALLOWED_ORIGIN),
   ("Access-Control-Allow-Methods", "POST, OPTIONS"),
   ("Access-Control-Allow-Headers", "Content-Type, Authorization"),
   ("Vary", "Origin")]

/-- The health handler.  `apiKey` is `process.env.GEMINI_API_KEY`. -/
def healthHandler (apiKey : Option String) (req : Request) : Response :=
  if req.method = "OPTIONS" then
    ⟨200, healthCorsHeaders, none⟩
  else if req.method ≠ "GET" then
    ⟨405, healthCorsHeaders, some (.errorBody "Method not allowed" none)⟩
  else
    ⟨200, healthCorsHeaders, some (.health true "gemini" (jsTruthyStr apiKey))⟩

/-- What one invocation of the scan handler produced: the response, whether
the upstream `fetch` was reached, and the rate-limit store it leaves behind. -/
structure ScanOutcome where
  response : Response
  upstreamCalled : Bool
  store : RateLimitStore

/-- The scan handler.  `apiKey` is `process.env.GEMINI_API_KEY`, `now` the
`Date.now()` of this invocation, `upstream` the behaviour of the single
`fetch`, and `jparse` the host `JSON.parse` restricted to this call site. -/
def scanHandler (apiKey : Option String) (req : Request) (store : RateLimitStore)
    (now : Int) (upstream : UpstreamOutcome)
    (jparse : String → Except String (List (String × Json))) : ScanOutcome :=
  if req.method = "OPTIONS" then
    ⟨⟨200, scanCorsHeaders, none⟩, false, store⟩
  else if req.method ≠ "POST" then
    ⟨⟨405, scanCorsHeaders, some (.errorBody "Method not allowed" none)⟩, false, store⟩
  else if !jsTruthyStr apiKey then
    ⟨⟨500, scanCorsHeaders, some (.errorBody "API not configured"
        (some "GEMINI_API_KEY environment variable is not set"))⟩, false, store⟩
  else
    let r := isRateLimited now (getClientIp req) store
    if r.1 then
      ⟨⟨429, scanCorsHeaders ++ [("Retry-After", "60")],
        some (.errorBody "Rate limit exceeded"
          (some ("Maximum " ++ toString RATE_LIMIT_MAX_REQUESTS ++
            " requests per minute allowed")))⟩, false, r.2⟩
    else
      let validation := validateImagePayload req.imageBase64 req.mimeType
      if !validation.valid then
        ⟨⟨400, scanCorsHeaders, some (.errorDetails "Invalid request" validation.errors)⟩,
          false, r.2⟩
      else
        match callGeminiVision upstream with
        | .ok geminiResponse =>
          ⟨⟨200, scanCorsHeaders, some (.scan (parseGeminiResponse jparse geminiResponse))⟩,
            true, r.2⟩
        | .error msg =>
          if strContains msg "Gemini API error" then
            ⟨⟨502, scanCorsHeaders, some (.errorBody "External API error" (some msg))⟩,
              true, r.2⟩
          else if strContains msg "fetch" then
            ⟨⟨500, scanCorsHeaders, some (.errorBody "Network error"
                (some "Failed to connect to Gemini API"))⟩, true, r.2⟩
          else
            ⟨⟨500, scanCorsHeaders, some (.errorBody "Internal server error"
                (some "An unexpected error occurred"))⟩, true, r.2⟩

/-- A sequence of scan invocations sharing the module-level store (same
request shape and upstream behaviour, one `Date.now()` per invocation). -/
def runScanSeq (apiKey : Option String) (req : Request) (upstream : UpstreamOutcome)
    (jparse : String → Except String (List (String × Json)))
    (store : RateLimitStore) : List Int → RateLimitStore × List ScanOutcome
  | [] => (store, [])
  | t :: ts =>
    let out := scanHandler apiKey req store t upstream jparse
    let rest := runScanSeq apiKey req upstream jparse out.store ts
    (rest.1, out :: rest.2)

/-! ### Basic lemmas about the store operations -/

theorem rlGet_rlSet_self (s : RateLimitStore) (ip : String) (e : RateLimitEntry) :
    rlGet (rlSet s ip e) ip = some e := by
  induction s with
  | nil => simp [rlGet, rlSet]
  | cons p t ih =>
    by_cases h : p.1 = ip
    · simp [rlGet, rlSet, h]
    · simp [rlGet, rlSet, h, ih]

theorem rlGet_eq_none_of_not_mem_keys (s : RateLimitStore) (ip : String)
    (h : ip ∉ s.map Prod.fst) : rlGet s ip = none := by
  induction s with
  | nil => simp [rlGet]
  | cons p t ih =>
    simp only [List.map_cons, List.mem_cons] at h
    push_neg at h
    have hk : ¬ p.1 = ip := fun hh => h.1 hh.symm
    simp [rlGet, hk, ih h.2]

theorem rlGet_cleanup_of_none (now : Int) (s : RateLimitStore) (ip : String)
    (h : rlGet s ip = none) : rlGet (cleanupRateLimitStore now s) ip = none := by
  induction s with
  | nil => simpa [cleanupRateLimitStore] using h
  | cons p t ih =>
    simp only [rlGet] at h
    by_cases hk : p.1 = ip
    · simp [hk] at h
    · simp only [hk, if_false] at h
      by_cases hd : now - p.2.windowStart > RATE_LIMIT_WINDOW
      · simp [cleanupRateLimitStore, hd, ih h]
      · simp [cleanupRateLimitStore, hd, rlGet, hk, ih h]

theorem rlGet_cleanup_of_kept (now : Int) (s : RateLimitStore) (ip : String)
    (e : RateLimitEntry) (h : rlGet s ip = some e)
    (hkeep : ¬ now - e.windowStart > RATE_LIMIT_WINDOW) :
    rlGet (cleanupRateLimitStore now s) ip = some e := by
  induction s with
  | nil => simp [rlGet] at h
  | cons p t ih =>
    simp only [rlGet] at h
    by_cases hk : p.1 = ip
    · simp only [hk, if_true, Option.some.injEq] at h
      subst h
      simp [cleanupRateLimitStore, hkeep, rlGet, hk]
    · simp only [hk, if_false] at h
      by_cases hd : now - p.2.windowStart > RATE_LIMIT_WINDOW
      · simp [cleanupRateLimitStore, hd, ih h]
      · simp [cleanupRateLimitStore, hd, rlGet, hk, ih h]

theorem rlGet_cleanup_of_expired (now : Int) (s : RateLimitStore) (ip : String)
    (e : RateLimitEntry) (hnd : (s.map Prod.fst).Nodup) (h : rlGet s ip = some e)
    (hexp : now - e.windowStart > RATE_LIMIT_WINDOW) :
    rlGet (cleanupRateLimitStore now s) ip = none := by
  induction s with
  | nil => simp [rlGet] at h
  | cons p t ih =>
    simp only [List.map_cons, List.nodup_cons] at hnd
    simp only [rlGet] at h
    by_cases hk : p.1 = ip
    · simp only [hk, if_true, Option.some.injEq] at h
      subst h
      simp only [cleanupRateLimitStore, hexp, if_true]
      exact rlGet_cleanup_of_none now t ip
        (rlGet_eq_none_of_not_mem_keys t ip (hk ▸ hnd.1))
    · simp only [hk, if_false] at h
      by_cases hd : now - p.2.windowStart > RATE_LIMIT_WINDOW
      · simp [cleanupRateLimitStore, hd, ih hnd.2 h]
      · simp [cleanupRateLimitStore, hd, rlGet, hk, ih hnd.2 h]

theorem mem_cleanupRateLimitStore (now : Int) (s : RateLimitStore)
    (p : String × RateLimitEntry) :
    p ∈ cleanupRateLimitStore now s ↔
      p ∈ s ∧ ¬ now - p.2.windowStart > RATE_LIMIT_WINDOW := by
  induction s with
  | nil => simp [cleanupRateLimitStore]
  | cons q t ih =>
    by_cases hd : now - q.2.windowStart > RATE_LIMIT_WINDOW
    · simp only [cleanupRateLimitStore, hd, if_true, ih, List.mem_cons]
      constructor
      · exact fun h => ⟨Or.inr h.1, h.2⟩
      · rintro ⟨h | h, h2⟩
        · subst h; exact absurd hd h2
        · exact ⟨h, h2⟩
    · simp only [cleanupRateLimitStore, hd, if_false, List.mem_cons, ih]
      constructor
      · rintro (h | h)
        · subst h; exact ⟨Or.inl rfl, hd⟩
        · exact ⟨Or.inr h.1, h.2⟩
      · rintro ⟨h | h, h2⟩
        · subst h; exact Or.inl rfl
        · exact Or.inr ⟨h, h2⟩

theorem mem_rlSet (s : RateLimitStore) (ip : String) (e : RateLimitEntry)
    (p : String × RateLimitEntry) (h : p ∈ rlSet s ip e) :
    p ∈ s ∨ p = (ip, e) := by
  induction s with
  | nil => simp [rlSet] at h; exact Or.inr h
  | cons q t ih =>
    by_cases hk : q.1 = ip
    · simp only [rlSet, hk, if_true, List.mem_cons] at h
      rcases h with h | h
      · exact Or.inr h
      · exact Or.inl (List.mem_cons_of_mem _ h)
    · simp only [rlSet, hk, if_false, List.mem_cons] at h
      rcases h with h | h
      · exact Or.inl (h ▸ List.mem_cons_self q t)
      · rcases ih h with h2 | h2
        · exact Or.inl (List.mem_cons_of_mem _ h2)
        · exact Or.inr h2

theorem rlGet_mem (s : RateLimitStore) (ip : String) (e : RateLimitEntry)
    (h : rlGet s ip = some e) : (ip, e) ∈ s := by
  induction s with
  | nil => simp [rlGet] at h
  | cons p t ih =>
    simp only [rlGet] at h
    by_cases hk : p.1 = ip
    · simp only [hk, if_true, Option.some.injEq] at h
      subst h
      exact hk ▸ List.mem_cons_self p t
    · simp only [hk, if_false] at h
      exact List.mem_cons_of_mem _ (ih h)

/-! ### Step lemmas for the scan handler -/

theorem scanHandler_proceed_eq (apiKey : Option String) (req : Request)
    (store : RateLimitStore) (now : Int) (upstream : UpstreamOutcome)
    (jparse : String → Except String (List (String × Json)))
    (hkey : jsTruthyStr apiKey = true) (hmethod : req.method = "POST")
    (hnl : (isRateLimited now (getClientIp req) store).1 = false)
    (hvalid : (validateImagePayload req.imageBase64 req.mimeType).valid = true) :
    scanHandler apiKey req store now upstream jparse =
      match callGeminiVision upstream with
      | .ok geminiResponse =>
        ⟨⟨200, scanCorsHeaders, some (.scan (parseGeminiResponse jparse geminiResponse))⟩,
          true, (isRateLimited now (getClientIp req) store).2⟩
      | .error msg =>
        if strContains msg "Gemini API error" then
          ⟨⟨502, scanCorsHeaders, some (.errorBody "External API error" (some msg))⟩,
            true, (isRateLimited now (getClientIp req) store).2⟩
        else if strContains msg "fetch" then
          ⟨⟨500, scanCorsHeaders, some (.errorBody "Network error"
              (some "Failed to connect to Gemini API"))⟩, true,
            (isRateLimited now (getClientIp req) store).2⟩
        else
          ⟨⟨500, scanCorsHeaders, some (.errorBody "Internal server error"
              (some "An unexpected error occurred"))⟩, true,
            (isRateLimited now (getClientIp req) store).2⟩ := by
  unfold scanHandler
  simp [hmethod, hkey, hnl, hvalid]

theorem scanHandler_proceed (apiKey : Option String) (req : Request)
    (store : RateLimitStore) (now : Int) (upstream : UpstreamOutcome)
    (jparse : String → Except String (List (String × Json)))
    (hkey : jsTruthyStr apiKey = true) (hmethod : req.method = "POST")
    (hnl : (isRateLimited now (getClientIp req) store).1 = false)
    (hvalid : (validateImagePayload req.imageBase64 req.mimeType).valid = true) :
    (scanHandler apiKey req store now upstream jparse).store =
      (isRateLimited now (getClientIp req) store).2 ∧
    (scanHandler apiKey req store now upstream jparse).upstreamCalled = true ∧
    (scanHandler apiKey req store now upstream jparse).response.status ≠ 429 := by
  rw [scanHandler_proceed_eq apiKey req store now upstream jparse hkey hmethod hnl hvalid]
  cases upstream with
  | ok body => simp [callGeminiVision]
  | httpError status bodyText =>
    simp only [callGeminiVision]
    split
    · simp
    · split <;> simp
  | thrown msg =>
    simp only [callGeminiVision]
    split
    · simp
    · split <;> simp

theorem scanHandler_limited (apiKey : Option String) (req : Request)
    (store : RateLimitStore) (now : Int) (upstream : UpstreamOutcome)
    (jparse : String → Except String (List (String × Json)))
    (hkey : jsTruthyStr apiKey = true) (hmethod : req.method = "POST")
    (hl : (isRateLimited now (getClientIp req) store).1 = true) :
    scanHandler apiKey req store now upstream jparse =
      ⟨⟨429, scanCorsHeaders ++ [("Retry-After", "60")],
        some (.errorBody "Rate limit exceeded"
          (some ("Maximum " ++ toString RATE_LIMIT_MAX_REQUESTS ++
            " requests per minute allowed")))⟩, false,
        (isRateLimited now (getClientIp req) store).2⟩ := by
  unfold scanHandler
  simp [hmethod, hkey, hl]

theorem scanHandler_invalid (apiKey : Option String) (req : Request)
    (store : RateLimitStore) (now : Int) (upstream : UpstreamOutcome)
    (jparse : String → Except String (List (String × Json)))
    (hkey : jsTruthyStr apiKey = true) (hmethod : req.method = "POST")
    (hnl : (isRateLimited now (getClientIp req) store).1 = false)
    (hvalid : (validateImagePayload req.imageBase64 req.mimeType).valid = false) :
    scanHandler apiKey req store now upstream jparse =
      ⟨⟨400, scanCorsHeaders, some (.errorDetails "Invalid request"
          (validateImagePayload req.imageBase64 req.mimeType).errors)⟩, false,
        (isRateLimited now (getClientIp req) store).2⟩ := by
  unfold scanHandler
  simp [hmethod, hkey, hnl, hvalid]

/-! ### C2: window reset -/

/-- C2: for every client whose rate-limit entry's window has elapsed
(`now - windowStart ≥ RATE_LIMIT_WINDOW`), the next scan request proceeds
(`isRateLimited` returns `false` and the handler does not answer 429), with
the entry created or reset to `count = 1`, `windowStart = now` — even if
the count in the prior window had reached the limit. -/
theorem c2_window_elapsed_resets (apiKey : Option String) (req : Request)
    (store : RateLimitStore) (now : Int) (e : RateLimitEntry)
    (upstream : UpstreamOutcome)
    (jparse : String → Except String (List (String × Json)))
    (hnd : (store.map Prod.fst).Nodup)
    (hget : rlGet store (getClientIp req) = some e)
    (helapsed : now - e.windowStart ≥ RATE_LIMIT_WINDOW)
    (hkey : jsTruthyStr apiKey = true) (hmethod : req.method = "POST") :
    (isRateLimited now (getClientIp req) store).1 = false ∧
    rlGet (isRateLimited now (getClientIp req) store).2 (getClientIp req) =
      some ⟨now, 1⟩ ∧
    (scanHandler apiKey req store now upstream jparse).response.status ≠ 429 := by
  have hmain : (isRateLimited now (getClientIp req) store).1 = false ∧
      rlGet (isRateLimited now (getClientIp req) store).2 (getClientIp req) =
        some ⟨now, 1⟩ := by
    by_cases hgt : now - e.windowStart > RATE_LIMIT_WINDOW
    · have h1 := rlGet_cleanup_of_expired now store (getClientIp req) e hnd hget hgt
      simp [isRateLimited, h1, rlGet_rlSet_self]
    · have h1 := rlGet_cleanup_of_kept now store (getClientIp req) e hget hgt
      have h2 : ¬ now - e.windowStart < RATE_LIMIT_WINDOW := by omega
      simp [isRateLimited, h1, h2, rlGet_rlSet_self]
  refine ⟨hmain.1, hmain.2, ?_⟩
  by_cases hvalid : (validateImagePayload req.imageBase64 req.mimeType).valid = true
  · exact (scanHandler_proceed apiKey req store now upstream jparse hkey hmethod
      hmain.1 hvalid).2.2
  · rw [scanHandler_invalid apiKey req store now upstream jparse hkey hmethod
      hmain.1 (by simpa using hvalid)]
    simp

/-- Witness for C2 at a concrete exhausted entry whose window has just
elapsed. -/
theorem c2_window_elapsed_resets_witness :
    (isRateLimited 60000 (getClientIp
        ⟨"POST", none, none, none, some "aGVsbG8=", some "image/jpeg"⟩)
        [("unknown", ⟨0, 10⟩)]).1 = false ∧
    rlGet (isRateLimited 60000 (getClientIp
        ⟨"POST", none, none, none, some "aGVsbG8=", some "image/jpeg"⟩)
        [("unknown", ⟨0, 10⟩)]).2 (getClientIp
        ⟨"POST", none, none, none, some "aGVsbG8=", some "image/jpeg"⟩) =
      some ⟨60000, 1⟩ ∧
    (scanHandler (some "key")
        ⟨"POST", none, none, none, some "aGVsbG8=", some "image/jpeg"⟩
        [("unknown", ⟨0, 10⟩)] 60000 (.thrown "boom")
        (fun _ => .error "bad")).response.status ≠ 429 :=
  c2_window_elapsed_resets (some "key")
    ⟨"POST", none, none, none, some "aGVsbG8=", some "image/jpeg"⟩
    [("unknown", ⟨0, 10⟩)] 60000 ⟨0, 10⟩ (.thrown "boom") (fun _ => .error "bad")
    (by decide) (by decide) (by decide) (by decide) (by decide)

/-! ### C3: the cleanup sweep (corrected) -/

/-- C3 counterexample: an entry whose window expired only 1000 ms ago —
less than one additional window-length — is nevertheless purged by
`cleanupRateLimitStore`, contradicting the claim that exactly the entries
expired by more than one window-length are purged. -/
theorem c3_counterexample :
    ("a", (⟨0, 1⟩ : RateLimitEntry)) ∈ ([("a", ⟨0, 1⟩)] : RateLimitStore) ∧
    (61000 : Int) - ((0 : Int) + RATE_LIMIT_WINDOW) < RATE_LIMIT_WINDOW ∧
    cleanupRateLimitStore 61000 [("a", ⟨0, 1⟩)] = [] := by
  refine ⟨by simp, by decide, by decide⟩

/-- C3 amended: before every rate-limit lookup (`isRateLimited` runs
`cleanupRateLimitStore` first), the purge removes exactly those entries
whose `windowStart` lies more than one window-length in the past
(`now - windowStart > RATE_LIMIT_WINDOW`), i.e. every entry whose window
has already expired by any positive amount; an entry exactly at the
boundary is retained. -/
theorem c3_cleanup_purges_expired_windows (now : Int) (s : RateLimitStore)
    (p : String × RateLimitEntry) :
    p ∈ cleanupRateLimitStore now s ↔
      p ∈ s ∧ now - p.2.windowStart ≤ RATE_LIMIT_WINDOW := by
  rw [mem_cleanupRateLimitStore]
  constructor <;> rintro ⟨h1, h2⟩ <;> exact ⟨h1, by omega⟩

/-! ### C10: counts stay within bounds -/

theorem countsBounded_cleanup (now : Int) (s : RateLimitStore)
    (h : countsBounded s) : countsBounded (cleanupRateLimitStore now s) :=
  fun p hp => h p ((mem_cleanupRateLimitStore now s p).1 hp).1

theorem countsBounded_isRateLimited (now : Int) (ip : String) (s : RateLimitStore)
    (h : countsBounded s) : countsBounded (isRateLimited now ip s).2 := by
  have hc := countsBounded_cleanup now s h
  unfold isRateLimited
  cases hget : rlGet (cleanupRateLimitStore now s) ip with
  | none =>
    simp only [hget]
    intro p hp
    rcases mem_rlSet _ _ _ _ hp with h1 | h1
    · exact hc p h1
    · subst h1
      simp [RATE_LIMIT_MAX_REQUESTS]
  | some cd =>
    by_cases hw : now - cd.windowStart < RATE_LIMIT_WINDOW
    · by_cases hcnt : cd.count ≥ RATE_LIMIT_MAX_REQUESTS
      · simpa [hget, hw, hcnt] using hc
      · simp only [hget, hw, hcnt, if_true, if_false]
        intro p hp
        rcases mem_rlSet _ _ _ _ hp with h1 | h1
        · exact hc p h1
        · subst h1
          simp only [RATE_LIMIT_MAX_REQUESTS] at hcnt ⊢
          omega
    · simp only [hget, hw, if_false]
      intro p hp
      rcases mem_rlSet _ _ _ _ hp with h1 | h1
      · exact hc p h1
      · subst h1
        simp [RATE_LIMIT_MAX_REQUESTS]

theorem countsBounded_foldl (ops : List RLOp) :
    ∀ s : RateLimitStore, countsBounded s → countsBounded (ops.foldl applyRLOp s) := by
  induction ops with
  | nil => exact fun s h => h
  | cons op rest ih =>
    intro s h
    refine ih (applyRLOp s op) ?_
    cases op with
    | limit now ip => exact countsBounded_isRateLimited now ip s h
    | cleanup now => exact countsBounded_cleanup now s h

/-- C10: after any sequence of `isRateLimited` and `cleanupRateLimitStore`
calls, starting from the initial empty table, every entry of the rate-limit
table has `1 ≤ count ≤ RATE_LIMIT_MAX_REQUESTS`. -/
theorem c10_counts_bounded (ops : List RLOp) (p : String × RateLimitEntry)
    (hp : p ∈ ops.foldl applyRLOp []) :
    1 ≤ p.2.count ∧ p.2.count ≤ RATE_LIMIT_MAX_REQUESTS :=
  countsBounded_foldl ops [] (by intro q hq; simp at hq) p hp

/-- Witness for C10 after one concrete `isRateLimited` call. -/
theorem c10_counts_bounded_witness :
    1 ≤ (("a", (⟨5, 1⟩ : RateLimitEntry)) : String × RateLimitEntry).2.count ∧
    (("a", (⟨5, 1⟩ : RateLimitEntry)) : String × RateLimitEntry).2.count ≤
      RATE_LIMIT_MAX_REQUESTS :=
  c10_counts_bounded [RLOp.limit 5 "a"] ("a", ⟨5, 1⟩) (by decide)

/-! ### C1: eleven requests inside one window -/

theorem isRateLimited_fresh (now : Int) (ip : String) (s : RateLimitStore)
    (hget : rlGet s ip = none) :
    (isRateLimited now ip s).1 = false ∧
    rlGet (isRateLimited now ip s).2 ip = some ⟨now, 1⟩ := by
  have h1 := rlGet_cleanup_of_none now s ip hget
  simp [isRateLimited, h1, rlGet_rlSet_self]

theorem isRateLimited_in_window_incr (now : Int) (ip : String) (s : RateLimitStore)
    (w : Int) (c : Nat) (hget : rlGet s ip = some ⟨w, c⟩)
    (hw : now - w < RATE_LIMIT_WINDOW) (hc : c < RATE_LIMIT_MAX_REQUESTS) :
    (isRateLimited now ip s).1 = false ∧
    rlGet (isRateLimited now ip s).2 ip = some ⟨w, c + 1⟩ := by
  have hkeep : ¬ now - w > RATE_LIMIT_WINDOW := by omega
  have h1 := rlGet_cleanup_of_kept now s ip ⟨w, c⟩ hget hkeep
  have hc2 : ¬ c ≥ RATE_LIMIT_MAX_REQUESTS := by omega
  simp [isRateLimited, h1, hw, hc2, rlGet_rlSet_self]

theorem isRateLimited_in_window_limited (now : Int) (ip : String) (s : RateLimitStore)
    (w : Int) (c : Nat) (hget : rlGet s ip = some ⟨w, c⟩)
    (hw : now - w < RATE_LIMIT_WINDOW) (hc : c ≥ RATE_LIMIT_MAX_REQUESTS) :
    (isRateLimited now ip s).1 = true ∧
    rlGet (isRateLimited now ip s).2 ip = some ⟨w, c⟩ := by
  have hkeep : ¬ now - w > RATE_LIMIT_WINDOW := by omega
  have h1 := rlGet_cleanup_of_kept now s ip ⟨w, c⟩ hget hkeep
  simp [isRateLimited, h1, hw, hc]

theorem runScanSeq_length (apiKey : Option String) (req : Request)
    (upstream : UpstreamOutcome)
    (jparse : String → Except String (List (String × Json)))
    (ts : List Int) : ∀ s : RateLimitStore,
    (runScanSeq apiKey req upstream jparse s ts).2.length = ts.length := by
  induction ts with
  | nil => intro s; simp [runScanSeq]
  | cons t ts ih => intro s; simp [runScanSeq, ih]

theorem runScanSeq_append (apiKey : Option String) (req : Request)
    (upstream : UpstreamOutcome)
    (jparse : String → Except String (List (String × Json)))
    (l1 l2 : List Int) : ∀ s : RateLimitStore,
    runScanSeq apiKey req upstream jparse s (l1 ++ l2) =
      ((runScanSeq apiKey req upstream jparse
          (runScanSeq apiKey req upstream jparse s l1).1 l2).1,
        (runScanSeq apiKey req upstream jparse s l1).2 ++
          (runScanSeq apiKey req upstream jparse
            (runScanSeq apiKey req upstream jparse s l1).1 l2).2) := by
  induction l1 with
  | nil => intro s; simp [runScanSeq]
  | cons t ts ih => intro s; simp [runScanSeq, ih]

theorem runScanSeq_in_window (apiKey : Option String) (req : Request)
    (upstream : UpstreamOutcome)
    (jparse : String → Except String (List (String × Json)))
    (hkey : jsTruthyStr apiKey = true) (hmethod : req.method = "POST")
    (hvalid : (validateImagePayload req.imageBase64 req.mimeType).valid = true)
    (ts : List Int) :
    ∀ (s : RateLimitStore) (w : Int) (c : Nat),
      rlGet s (getClientIp req) = some ⟨w, c⟩ →
      c + ts.length ≤ RATE_LIMIT_MAX_REQUESTS →
      (∀ t ∈ ts, t - w < RATE_LIMIT_WINDOW) →
      (∀ out ∈ (runScanSeq apiKey req upstream jparse s ts).2,
        out.response.status ≠ 429 ∧ out.upstreamCalled = true) ∧
      rlGet (runScanSeq apiKey req upstream jparse s ts).1 (getClientIp req) =
        some ⟨w, c + ts.length⟩ := by
  induction ts with
  | nil =>
    intro s w c hget _ _
    simpa [runScanSeq] using hget
  | cons t ts ih =>
    intro s w c hget hcnt hwin
    have hw : t - w < RATE_LIMIT_WINDOW := hwin t (List.mem_cons_self t ts)
    have hc : c < RATE_LIMIT_MAX_REQUESTS := by
      simp only [List.length_cons] at hcnt
      omega
    have hstep := isRateLimited_in_window_incr t (getClientIp req) s w c hget hw hc
    have hout := scanHandler_proceed apiKey req s t upstream jparse hkey hmethod
      hstep.1 hvalid
    have hget2 : rlGet (scanHandler apiKey req s t upstream jparse).store
        (getClientIp req) = some ⟨w, c + 1⟩ := by
      rw [hout.1]
      exact hstep.2
    have hrest := ih (scanHandler apiKey req s t upstream jparse).store w (c + 1)
      hget2
      (by simp only [List.length_cons] at hcnt; omega)
      (fun t2 ht2 => hwin t2 (List.mem_cons_of_mem _ ht2))
    have hlen : c + (t :: ts).length = (c + 1) + ts.length := by
      simp only [List.length_cons]
      omega
    rw [hlen]
    simp only [runScanSeq]
    refine ⟨?_, hrest.2⟩
    intro o ho
    rcases List.mem_cons.mp ho with h | h
    · subst h
      exact ⟨hout.2.2, hout.2.1⟩
    · exact hrest.1 o h

/-- C1: for a client with no current rate-limit entry, eleven POST scan
requests inside a single 60-second window (credential configured,
validation passing) behave as: the first ten proceed to the upstream call
and none answers 429; the eleventh answers 429 with a `Retry-After: 60`
header and the rate-limit error body, performs no upstream call, and
leaves the stored count at `RATE_LIMIT_MAX_REQUESTS` (not incremented
further). -/
theorem c1_eleventh_request_limited (apiKey : Option String) (req : Request)
    (store : RateLimitStore) (upstream : UpstreamOutcome)
    (jparse : String → Except String (List (String × Json)))
    (t0 : Int) (mid : List Int) (tl : Int)
    (hkey : jsTruthyStr apiKey = true) (hmethod : req.method = "POST")
    (hvalid : (validateImagePayload req.imageBase64 req.mimeType).valid = true)
    (hfresh : rlGet store (getClientIp req) = none)
    (hmidlen : mid.length = 9)
    (hmid : ∀ t ∈ mid, t0 ≤ t ∧ t - t0 < RATE_LIMIT_WINDOW)
    (htl0 : t0 ≤ tl) (htl : tl - t0 < RATE_LIMIT_WINDOW) :
    (runScanSeq apiKey req upstream jparse store (t0 :: (mid ++ [tl]))).2.length = 11 ∧
    (∀ out ∈ (runScanSeq apiKey req upstream jparse store (t0 :: (mid ++ [tl]))).2.take 10,
      out.response.status ≠ 429 ∧ out.upstreamCalled = true) ∧
    (∀ out ∈ (runScanSeq apiKey req upstream jparse store (t0 :: (mid ++ [tl]))).2.drop 10,
      out.response.status = 429 ∧
      ("Retry-After", "60") ∈ out.response.headers ∧
      out.response.body = some (.errorBody "Rate limit exceeded"
        (some ("Maximum " ++ toString RATE_LIMIT_MAX_REQUESTS ++
          " requests per minute allowed"))) ∧
      out.upstreamCalled = false ∧
      rlGet out.store (getClientIp req) = some ⟨t0, RATE_LIMIT_MAX_REQUESTS⟩) := by
  -- request 1: fresh entry with count 1
  have hstep0 := isRateLimited_fresh t0 (getClientIp req) store hfresh
  have hout0 := scanHandler_proceed apiKey req store t0 upstream jparse hkey hmethod
    hstep0.1 hvalid
  have hget1 : rlGet (scanHandler apiKey req store t0 upstream jparse).store
      (getClientIp req) = some ⟨t0, 1⟩ := by
    rw [hout0.1]
    exact hstep0.2
  -- requests 2..10: counts 2..10
  have hmidrun := runScanSeq_in_window apiKey req upstream jparse hkey hmethod hvalid
    mid (scanHandler apiKey req store t0 upstream jparse).store t0 1 hget1
    (by rw [hmidlen]; decide) (fun t ht => (hmid t ht).2)
  have hget10 : rlGet (runScanSeq apiKey req upstream jparse
      (scanHandler apiKey req store t0 upstream jparse).store mid).1 (getClientIp req) =
      some ⟨t0, RATE_LIMIT_MAX_REQUESTS⟩ := by
    have h := hmidrun.2
    rw [hmidlen] at h
    exact h
  -- request 11: limited, count stays at the maximum
  have hstep10 := isRateLimited_in_window_limited tl (getClientIp req)
    (runScanSeq apiKey req upstream jparse
      (scanHandler apiKey req store t0 upstream jparse).store mid).1 t0
    RATE_LIMIT_MAX_REQUESTS hget10 htl (le_refl _)
  have hout10 := scanHandler_limited apiKey req
    (runScanSeq apiKey req upstream jparse
      (scanHandler apiKey req store t0 upstream jparse).store mid).1 tl upstream jparse
    hkey hmethod hstep10.1
  -- assemble the run
  have happ := runScanSeq_append apiKey req upstream jparse mid [tl]
    (scanHandler apiKey req store t0 upstream jparse).store
  have hlist : (runScanSeq apiKey req upstream jparse store (t0 :: (mid ++ [tl]))).2 =
      (scanHandler apiKey req store t0 upstream jparse ::
        (runScanSeq apiKey req upstream jparse
          (scanHandler apiKey req store t0 upstream jparse).store mid).2) ++
        [scanHandler apiKey req (runScanSeq apiKey req upstream jparse
          (scanHandler apiKey req store t0 upstream jparse).store mid).1 tl upstream jparse] := by
    simp only [runScanSeq, happ]
    simp [runScanSeq]
  have hfrontlen : (scanHandler apiKey req store t0 upstream jparse ::
      (runScanSeq apiKey req upstream jparse
        (scanHandler apiKey req store t0 upstream jparse).store mid).2).length = 10 := by
    simp [runScanSeq_length, hmidlen]
  refine ⟨?_, ?_, ?_⟩
  · rw [hlist]
    simp [runScanSeq_length, hmidlen]
  · rw [hlist, List.take_left' hfrontlen]
    intro o ho
    rcases List.mem_cons.mp ho with h | h
    · subst h
      exact ⟨hout0.2.2, hout0.2.1⟩
    · exact hmidrun.1 o h
  · rw [hlist, List.drop_left' hfrontlen]
    intro o ho
    rw [List.mem_singleton.mp ho, hout10]
    refine ⟨rfl, ?_, rfl, rfl, hstep10.2⟩
    simp [scanCorsHeaders]

/-- Witness for C1: eleven requests at one-second intervals from a fresh
client. -/
theorem c1_eleventh_request_limited_witness :
    (runScanSeq (some "key")
      ⟨"POST", none, none, none, some "aGVsbG8=", some "image/jpeg"⟩
      (.thrown "boom") (fun _ => .error "bad") []
      ((0 : Int) :: ([1000, 2000, 3000, 4000, 5000, 6000, 7000, 8000, 9000] ++
        [10000]))).2.length = 11 ∧
    (∀ out ∈ (runScanSeq (some "key")
      ⟨"POST", none, none, none, some "aGVsbG8=", some "image/jpeg"⟩
      (.thrown "boom") (fun _ => .error "bad") []
      ((0 : Int) :: ([1000, 2000, 3000, 4000, 5000, 6000, 7000, 8000, 9000] ++
        [10000]))).2.take 10,
      out.response.status ≠ 429 ∧ out.upstreamCalled = true) ∧
    (∀ out ∈ (runScanSeq (some "key")
      ⟨"POST", none, none, none, some "aGVsbG8=", some "image/jpeg"⟩
      (.thrown "boom") (fun _ => .error "bad") []
      ((0 : Int) :: ([1000, 2000, 3000, 4000, 5000, 6000, 7000, 8000, 9000] ++
        [10000]))).2.drop 10,
      out.response.status = 429 ∧
      ("Retry-After", "60") ∈ out.response.headers ∧
      out.response.body = some (.errorBody "Rate limit exceeded"
        (some ("Maximum " ++ toString RATE_LIMIT_MAX_REQUESTS ++
          " requests per minute allowed"))) ∧
      out.upstreamCalled = false ∧
      rlGet out.store (getClientIp
        ⟨"POST", none, none, none, some "aGVsbG8=", some "image/jpeg"⟩) =
        some ⟨0, RATE_LIMIT_MAX_REQUESTS⟩) :=
  c1_eleventh_request_limited (some "key")
    ⟨"POST", none, none, none, some "aGVsbG8=", some "image/jpeg"⟩
    [] (.thrown "boom") (fun _ => .error "bad") 0
    [1000, 2000, 3000, 4000, 5000, 6000, 7000, 8000, 9000] 10000
    (by decide) (by decide)
    (by simp [validateImagePayload, stripDataUrlPre, dataUrlCapture, jsTruthyStr,
          allowedMimeTypes, listHasPre]
        rw [show ("aGVsbG8=".length = 8) from rfl]
        norm_num)
    (by decide) (by decide) (by decide) (by decide) (by decide)

/-! ### C4: data-URL prefix stripping (corrected) -/

theorem toList_append (a b : String) : (a ++ b).toList = a.toList ++ b.toList :=
  String.data_append a b

theorem toList_ne_nil (s : String) (h : s ≠ "") : s.toList ≠ [] :=
  fun hno => h (String.ext hno)

theorem listHasPre_append_self (p r : List Char) : listHasPre p (p ++ r) = true := by
  induction p with
  | nil => simp [listHasPre]
  | cons a t ih => simp [listHasPre, ih]

theorem listHasPre_mem (p : List Char) :
    ∀ l : List Char, listHasPre p l = true → ∀ c ∈ p, c ∈ l := by
  induction p with
  | nil => simp
  | cons a t ih =>
    intro l h c hc
    cases l with
    | nil => simp [listHasPre] at h
    | cons b l2 =>
      simp only [listHasPre, Bool.and_eq_true, decide_eq_true_eq] at h
      rcases List.mem_cons.mp hc with rfl | hc2
      · exact h.1 ▸ List.mem_cons_self b l2
      · exact List.mem_cons_of_mem _ (ih l2 h.2 c hc2)

theorem takeWhile_append_of_stop (p : Char → Bool) (l1 : List Char) (c : Char)
    (l2 : List Char) (h1 : ∀ x ∈ l1, p x = true) (hc : p c = false) :
    (l1 ++ c :: l2).takeWhile p = l1 := by
  induction l1 with
  | nil => simp [List.takeWhile_cons, hc]
  | cons a t ih =>
    have ha : p a = true := h1 a (List.mem_cons_self a t)
    simp [List.takeWhile_cons, ha,
      ih (fun x hx => h1 x (List.mem_cons_of_mem _ hx))]

theorem not_lineTerm_of_base64 (c : Char) (h : isBase64Char c = true) :
    isLineTerm c = false := by
  cases hlt : isLineTerm c
  · rfl
  · exfalso
    have hcase : ((c = '\n' ∨ c = '\r') ∨ c = Char.ofNat 0x2028) ∨ c = Char.ofNat 0x2029 := by
      simpa [isLineTerm] using hlt
    rcases hcase with ((rfl | rfl) | rfl) | rfl <;> revert h <;> decide

theorem dataUrlCapture_wrapped (subtype payload : String)
    (hs : subtype ≠ "") (hsc : ∀ c ∈ subtype.toList, isSubtypeChar c = true)
    (hp : payload ≠ "") (hpc : ∀ c ∈ payload.toList, isBase64Char c = true) :
    dataUrlCapture ("data:image/" ++ subtype ++ ";base64," ++ payload) = some payload := by
  have hL : ("data:image/" ++ subtype ++ ";base64," ++ payload).toList =
      "data:image/".toList ++ (subtype.toList ++ (";base64,".toList ++ payload.toList)) := by
    simp [toList_append]
  have hdrop1 : ("data:image/".toList ++
      (subtype.toList ++ (";base64,".toList ++ payload.toList))).drop 11 =
      subtype.toList ++ (";base64,".toList ++ payload.toList) := by
    have h11 : ("data:image/".toList).length = 11 := rfl
    rw [← h11, List.drop_left]
  have hsemi : subtype.toList ++ (";base64,".toList ++ payload.toList) =
      subtype.toList ++ (';' :: ("base64,".toList ++ payload.toList)) := rfl
  have htake : (subtype.toList ++ (";base64,".toList ++ payload.toList)).takeWhile
      isSubtypeChar = subtype.toList := by
    rw [hsemi]
    exact takeWhile_append_of_stop isSubtypeChar subtype.toList ';' _ hsc (by decide)
  have hdrop2 : (subtype.toList ++ (";base64,".toList ++ payload.toList)).drop
      subtype.toList.length = ";base64,".toList ++ payload.toList :=
    List.drop_left _ _
  have hdrop3 : (";base64,".toList ++ payload.toList).drop 8 = payload.toList := by
    have h8 : (";base64,".toList).length = 8 := rfl
    rw [← h8, List.drop_left]
  have hslen : 0 < subtype.toList.length :=
    List.length_pos.mpr (toList_ne_nil subtype hs)
  have hplen : 0 < payload.toList.length :=
    List.length_pos.mpr (toList_ne_nil payload hp)
  have hall : payload.toList.all (fun c => !isLineTerm c) = true := by
    rw [List.all_eq_true]
    intro c hc
    simp [not_lineTerm_of_base64 c (hpc c hc)]
  have hmk : String.mk payload.toList = payload := rfl
  simp only [dataUrlCapture, hL, listHasPre_append_self, if_true, hdrop1, htake,
    hdrop2, hdrop3, hslen, hplen, hall, hmk, listHasPre_append_self,
    Bool.and_eq_true, decide_eq_true_eq, gt_iff_lt, and_true, true_and, and_self]

theorem dataUrlCapture_base64_none (payload : String)
    (hpc : ∀ c ∈ payload.toList, isBase64Char c = true) :
    dataUrlCapture payload = none := by
  have hpre : listHasPre "data:image/".toList payload.toList = false := by
    cases hb : listHasPre "data:image/".toList payload.toList
    · rfl
    · exfalso
      have hcolon : (':' : Char) ∈ payload.toList :=
        listHasPre_mem "data:image/".toList payload.toList hb ':' (by decide)
      have hcb := hpc ':' hcolon
      simp [isBase64Char] at hcb
  simp only [dataUrlCapture]
  rw [hpre]
  simp

theorem stripDataUrlPre_wrapped (subtype payload : String)
    (hs : subtype ≠ "") (hsc : ∀ c ∈ subtype.toList, isSubtypeChar c = true)
    (hp : payload ≠ "") (hpc : ∀ c ∈ payload.toList, isBase64Char c = true) :
    stripDataUrlPre (some ("data:image/" ++ subtype ++ ";base64," ++ payload)) = payload := by
  have hne : ("data:image/" ++ subtype ++ ";base64," ++ payload) ≠ "" := by
    intro h
    have h2 := congrArg String.toList h
    simp [toList_append] at h2
  simp [stripDataUrlPre, hne, dataUrlCapture_wrapped subtype payload hs hsc hp hpc]

theorem stripDataUrlPre_base64_raw (payload : String) (hp : payload ≠ "")
    (hpc : ∀ c ∈ payload.toList, isBase64Char c = true) :
    stripDataUrlPre (some payload) = payload := by
  simp [stripDataUrlPre, hp, dataUrlCapture_base64_none payload hpc]

/-- C4 counterexample: for the empty base64 payload the claim fails.  The
raw empty payload is rejected with an `imageBase64 is required` error and
has estimated size 0, while the same payload wrapped in a data-URL prefix
(the string `data:image/png;base64,` with nothing after the comma) does not
match the stripping regex (`(.+)$` needs a nonempty capture), passes
validation, and has a nonzero estimated size. -/
theorem c4_counterexample :
    (validateImagePayload (some "data:image/png;base64,") (some "image/png")).valid
        = true ∧
    (validateImagePayload (some "") (some "image/png")).valid = false ∧
    stripDataUrlPre (some "data:image/png;base64,") ≠ stripDataUrlPre (some "") ∧
    ((stripDataUrlPre (some "data:image/png;base64,")).length * 3 : ℚ) / 4 ≠
      ((stripDataUrlPre (some "")).length * 3 : ℚ) / 4 := by
  have h1s : stripDataUrlPre (some "data:image/png;base64,") =
      "data:image/png;base64," := rfl
  have h1l : ("data:image/png;base64,").length = 22 := rfl
  have h0s : stripDataUrlPre (some "") = "" := rfl
  have h0l : ("" : String).length = 0 := rfl
  refine ⟨?_, ?_, ?_, ?_⟩
  · simp [validateImagePayload, jsTruthyStr, allowedMimeTypes, h1s, h1l]
    norm_num
  · simp [validateImagePayload, jsTruthyStr, allowedMimeTypes, h0s, h0l]
    norm_num
  · rw [h1s, h0s]
    decide
  · rw [h1s, h0s, h1l, h0l]
    norm_num

/-- C4 amended: for every nonempty base64 payload (characters from the
base64 alphabet) and every mime type, submitting the payload wrapped in a
`data:image/<subtype>;base64,` prefix and submitting the raw payload give
the same stripped payload, hence identical estimated decoded sizes and
identical validation outcomes.  The original claim fails only for the
empty payload, which the stripping regex cannot capture. -/
theorem c4_data_url_equivalence (subtype payload : String) (mimeType : Option String)
    (hs : subtype ≠ "") (hsc : ∀ c ∈ subtype.toList, isSubtypeChar c = true)
    (hp : payload ≠ "") (hpc : ∀ c ∈ payload.toList, isBase64Char c = true) :
    stripDataUrlPre (some ("data:image/" ++ subtype ++ ";base64," ++ payload)) =
      stripDataUrlPre (some payload) ∧
    validateImagePayload (some ("data:image/" ++ subtype ++ ";base64," ++ payload)) mimeType =
      validateImagePayload (some payload) mimeType := by
  have h1 := stripDataUrlPre_wrapped subtype payload hs hsc hp hpc
  have h2 := stripDataUrlPre_base64_raw payload hp hpc
  have hne : ("data:image/" ++ subtype ++ ";base64," ++ payload) ≠ "" := by
    intro h
    have hx := congrArg String.toList h
    simp [toList_append] at hx
  have ht1 : jsTruthyStr (some ("data:image/" ++ subtype ++ ";base64," ++ payload)) = true := by
    simp [jsTruthyStr, hne]
  have ht2 : jsTruthyStr (some payload) = true := by
    simp [jsTruthyStr, hp]
  refine ⟨h1.trans h2.symm, ?_⟩
  simp only [validateImagePayload, h1, h2, ht1, ht2]

/-- Witness for C4 (amended) at a concrete payload and subtype. -/
theorem c4_data_url_equivalence_witness :
    stripDataUrlPre (some ("data:image/" ++ "png" ++ ";base64," ++ "aGVsbG8=")) =
      stripDataUrlPre (some "aGVsbG8=") ∧
    validateImagePayload (some ("data:image/" ++ "png" ++ ";base64," ++ "aGVsbG8="))
        (some "image/jpeg") =
      validateImagePayload (some "aGVsbG8=") (some "image/jpeg") :=
  c4_data_url_equivalence "png" "aGVsbG8=" (some "image/jpeg")
    (by decide) (by decide) (by decide) (by decide)

/-! ### C5: the 400 validation gate -/

theorem jsTruthyStrFalse_iff (o : Option String) :
    jsTruthyStr o = false ↔ (o = none ∨ o = some "") := by
  cases o with
  | none => simp [jsTruthyStr]
  | some s => simp [jsTruthyStr]

theorem mimeCond_iff (mimeType : Option String) :
    (!jsTruthyStr mimeType || !(allowedMimeTypes.contains (mimeType.getD ""))) = true ↔
      (mimeType ≠ some "image/jpeg" ∧ mimeType ≠ some "image/png") := by
  cases mimeType with
  | none => simp [jsTruthyStr, allowedMimeTypes]
  | some m =>
    by_cases h1 : m = "image/jpeg"
    · subst h1
      simp [jsTruthyStr, allowedMimeTypes]
    · by_cases h2 : m = "image/png"
      · subst h2
        simp [jsTruthyStr, allowedMimeTypes]
      · by_cases h3 : m = ""
        · subst h3
          simp [jsTruthyStr, allowedMimeTypes]
        · simp [jsTruthyStr, allowedMimeTypes, h1, h2, h3]

theorem validateImagePayload_valid_eq (imageBase64 mimeType : Option String) :
    (validateImagePayload imageBase64 mimeType).valid =
      (!(!jsTruthyStr mimeType || !(allowedMimeTypes.contains (mimeType.getD ""))) &&
        jsTruthyStr imageBase64 &&
        !(decide (((stripDataUrlPre imageBase64).length * 3 : ℚ) / 4 >
          10 * 1024 * 1024))) := by
  cases hA : (!jsTruthyStr mimeType || !(allowedMimeTypes.contains (mimeType.getD ""))) <;>
    cases hB : jsTruthyStr imageBase64 <;>
    by_cases hC : ((stripDataUrlPre imageBase64).length * 3 : ℚ) / 4 >
      10 * 1024 * 1024 <;>
    (simp only [validateImagePayload, hA, hB]; simp [hC])

theorem validateImagePayload_invalid_iff (imageBase64 mimeType : Option String) :
    (validateImagePayload imageBase64 mimeType).valid = false ↔
      ((mimeType ≠ some "image/jpeg" ∧ mimeType ≠ some "image/png") ∨
        (imageBase64 = none ∨ imageBase64 = some "") ∨
        ((stripDataUrlPre imageBase64).length * 3 : ℚ) / 4 > 10 * 1024 * 1024) := by
  rw [validateImagePayload_valid_eq]
  cases hA : (!jsTruthyStr mimeType || !(allowedMimeTypes.contains (mimeType.getD ""))) with
  | true =>
    have hA2 : mimeType ≠ some "image/jpeg" ∧ mimeType ≠ some "image/png" :=
      (mimeCond_iff mimeType).mp hA
    simp [hA2]
  | false =>
    have hA2 : ¬ (mimeType ≠ some "image/jpeg" ∧ mimeType ≠ some "image/png") := by
      rw [← mimeCond_iff mimeType, hA]
      simp
    cases hB : jsTruthyStr imageBase64 with
    | false =>
      have hB2 : imageBase64 = none ∨ imageBase64 = some "" :=
        (jsTruthyStrFalse_iff imageBase64).mp hB
      simp [hA2, hB2]
    | true =>
      have hB2 : ¬ (imageBase64 = none ∨ imageBase64 = some "") := by
        rw [← jsTruthyStrFalse_iff imageBase64, hB]
        simp
      by_cases hC : ((stripDataUrlPre imageBase64).length * 3 : ℚ) / 4 >
        10 * 1024 * 1024
      · simp [hA2, hB2, hC]
      · simp [hA2, hB2, hC]

/-- C5: with the credential configured and the rate limit not exceeded, a
POST to the scan endpoint answers 400 with the itemized validation error
list and performs no upstream call exactly when the mime type is not
`image/jpeg` or `image/png`, or `imageBase64` is missing or empty, or the
estimated decoded size `length * 3 / 4` of the prefix-stripped payload
exceeds 10 MiB. -/
theorem c5_validation_gate (apiKey : Option String) (req : Request)
    (store : RateLimitStore) (now : Int) (upstream : UpstreamOutcome)
    (jparse : String → Except String (List (String × Json)))
    (hkey : jsTruthyStr apiKey = true) (hmethod : req.method = "POST")
    (hnl : (isRateLimited now (getClientIp req) store).1 = false) :
    ((scanHandler apiKey req store now upstream jparse).response.status = 400 ∧
      (scanHandler apiKey req store now upstream jparse).upstreamCalled = false ∧
      (scanHandler apiKey req store now upstream jparse).response.body =
        some (ResponseBody.errorDetails "Invalid request"
          (validateImagePayload req.imageBase64 req.mimeType).errors)) ↔
      ((req.mimeType ≠ some "image/jpeg" ∧ req.mimeType ≠ some "image/png") ∨
        (req.imageBase64 = none ∨ req.imageBase64 = some "") ∨
        ((stripDataUrlPre req.imageBase64).length * 3 : ℚ) / 4 > 10 * 1024 * 1024) := by
  constructor
  · intro h
    by_contra hc
    have hvalid : (validateImagePayload req.imageBase64 req.mimeType).valid = true := by
      cases hv : (validateImagePayload req.imageBase64 req.mimeType).valid
      · exact absurd
          ((validateImagePayload_invalid_iff req.imageBase64 req.mimeType).mp hv) hc
      · rfl
    have hout := scanHandler_proceed apiKey req store now upstream jparse hkey hmethod
      hnl hvalid
    have hcontra := hout.2.1
    rw [h.2.1] at hcontra
    exact Bool.false_ne_true hcontra
  · intro hcond
    have hvalid : (validateImagePayload req.imageBase64 req.mimeType).valid = false :=
      (validateImagePayload_invalid_iff req.imageBase64 req.mimeType).mpr hcond
    rw [scanHandler_invalid apiKey req store now upstream jparse hkey hmethod hnl hvalid]
    exact ⟨rfl, rfl, rfl⟩

/-- Witness for C5 at a request with a missing mime type. -/
theorem c5_validation_gate_witness :
    ((scanHandler (some "key") ⟨"POST", none, none, none, some "aGVsbG8=", none⟩
        [] 0 (.thrown "boom") (fun _ => .error "bad")).response.status = 400 ∧
      (scanHandler (some "key") ⟨"POST", none, none, none, some "aGVsbG8=", none⟩
        [] 0 (.thrown "boom") (fun _ => .error "bad")).upstreamCalled = false ∧
      (scanHandler (some "key") ⟨"POST", none, none, none, some "aGVsbG8=", none⟩
        [] 0 (.thrown "boom") (fun _ => .error "bad")).response.body =
        some (ResponseBody.errorDetails "Invalid request"
          (validateImagePayload (some "aGVsbG8=") none).errors)) ↔
      (((none : Option String) ≠ some "image/jpeg" ∧
          (none : Option String) ≠ some "image/png") ∨
        ((some "aGVsbG8=" : Option String) = none ∨
          (some "aGVsbG8=" : Option String) = some "") ∨
        ((stripDataUrlPre (some "aGVsbG8=")).length * 3 : ℚ) / 4 > 10 * 1024 * 1024) :=
  c5_validation_gate (some "key") ⟨"POST", none, none, none, some "aGVsbG8=", none⟩
    [] 0 (.thrown "boom") (fun _ => .error "bad")
    (by decide) (by decide) (by decide)

/-! ### C7: configuration reporting and fail-closed scan -/

/-- C7: `GET` on the health endpoint answers
`{ ok: true, provider: "gemini", configured: b }` with `b` true exactly
when the credential is present (a nonempty `GEMINI_API_KEY`); and with the
credential absent, a POST to the scan endpoint answers 500 with the
configuration-error body before any other work: no upstream call and the
rate-limit store untouched. -/
theorem c7_configured_reporting (anyKey missingKey : Option String)
    (reqG reqP : Request) (store : RateLimitStore) (now : Int)
    (upstream : UpstreamOutcome)
    (jparse : String → Except String (List (String × Json)))
    (hG : reqG.method = "GET") (hP : reqP.method = "POST")
    (hmiss : jsTruthyStr missingKey = false) :
    healthHandler anyKey reqG =
      ⟨200, healthCorsHeaders, some (.health true "gemini" (jsTruthyStr anyKey))⟩ ∧
    (jsTruthyStr anyKey = true ↔ (anyKey ≠ none ∧ anyKey ≠ some "")) ∧
    (scanHandler missingKey reqP store now upstream jparse).response.status = 500 ∧
    (scanHandler missingKey reqP store now upstream jparse).response.body =
      some (.errorBody "API not configured"
        (some "GEMINI_API_KEY environment variable is not set")) ∧
    (scanHandler missingKey reqP store now upstream jparse).upstreamCalled = false ∧
    (scanHandler missingKey reqP store now upstream jparse).store = store := by
  refine ⟨?_, ?_, ?_, ?_, ?_, ?_⟩
  · simp [healthHandler, hG]
  · cases anyKey with
    | none => simp [jsTruthyStr]
    | some s => simp [jsTruthyStr]
  all_goals simp [scanHandler, hP, hmiss]

/-- Witness for C7 with a set key for the health endpoint and an unset key
for the scan endpoint. -/
theorem c7_configured_reporting_witness :
    healthHandler (some "key") ⟨"GET", none, none, none, none, none⟩ =
      ⟨200, healthCorsHeaders,
        some (.health true "gemini" (jsTruthyStr (some "key")))⟩ ∧
    (jsTruthyStr (some "key") = true ↔
      ((some "key" : Option String) ≠ none ∧ (some "key" : Option String) ≠ some "")) ∧
    (scanHandler none ⟨"POST", none, none, none, some "aGVsbG8=", some "image/jpeg"⟩
      [("a", ⟨0, 3⟩)] 0 (.thrown "boom") (fun _ => .error "bad")).response.status = 500 ∧
    (scanHandler none ⟨"POST", none, none, none, some "aGVsbG8=", some "image/jpeg"⟩
      [("a", ⟨0, 3⟩)] 0 (.thrown "boom") (fun _ => .error "bad")).response.body =
      some (.errorBody "API not configured"
        (some "GEMINI_API_KEY environment variable is not set")) ∧
    (scanHandler none ⟨"POST", none, none, none, some "aGVsbG8=", some "image/jpeg"⟩
      [("a", ⟨0, 3⟩)] 0 (.thrown "boom") (fun _ => .error "bad")).upstreamCalled = false ∧
    (scanHandler none ⟨"POST", none, none, none, some "aGVsbG8=", some "image/jpeg"⟩
      [("a", ⟨0, 3⟩)] 0 (.thrown "boom") (fun _ => .error "bad")).store =
      [("a", ⟨0, 3⟩)] :=
  c7_configured_reporting (some "key") none
    ⟨"GET", none, none, none, none, none⟩
    ⟨"POST", none, none, none, some "aGVsbG8=", some "image/jpeg"⟩
    [("a", ⟨0, 3⟩)] 0 (.thrown "boom") (fun _ => .error "bad")
    (by decide) (by decide) (by decide)

/-! ### C9: CORS headers and OPTIONS preflight -/

theorem healthHandler_headers (apiKey : Option String) (req : Request) :
    (healthHandler apiKey req).headers = healthCorsHeaders := by
  unfold healthHandler
  split
  · rfl
  · split <;> rfl

theorem scanHandler_headers_mem (apiKey : Option String) (req : Request)
    (store : RateLimitStore) (now : Int) (upstream : UpstreamOutcome)
    (jparse : String → Except String (List (String × Json)))
    (x : String × String) (hx : x ∈ scanCorsHeaders) :
    x ∈ (scanHandler apiKey req store now upstream jparse).response.headers := by
  unfold scanHandler
  repeat' (first | split | dsimp only)
  all_goals first
    | exact hx
    | exact List.mem_append_left _ hx

/-- C9: every response of either handler carries the fixed
`Access-Control-Allow-Origin`, the allowed headers
`Content-Type, Authorization`, and `Vary: Origin`; and an OPTIONS request
to either endpoint answers 200 with no body, whatever the configuration
state. -/
theorem c9_cors_and_preflight (apiKey : Option String) (req : Request)
    (store : RateLimitStore) (now : Int) (upstream : UpstreamOutcome)
    (jparse : String → Except String (List (String × Json))) :
    (("Access-Control-Allow-Origin", ALLOWED_ORIGIN) ∈ (healthHandler apiKey req).headers ∧
      ("Access-Control-Allow-Headers", "Content-Type, Authorization") ∈
        (healthHandler apiKey req).headers ∧
      ("Vary", "Origin") ∈ (healthHandler apiKey req).headers) ∧
    (("Access-Control-Allow-Origin", ALLOWED_ORIGIN) ∈
        (scanHandler apiKey req store now upstream jparse).response.headers ∧
      ("Access-Control-Allow-Headers", "Content-Type, Authorization") ∈
        (scanHandler apiKey req store now upstream jparse).response.headers ∧
      ("Vary", "Origin") ∈
        (scanHandler apiKey req store now upstream jparse).response.headers) ∧
    (req.method = "OPTIONS" →
      ((healthHandler apiKey req).status = 200 ∧
        (healthHandler apiKey req).body = none) ∧
      ((scanHandler apiKey req store now upstream jparse).response.status = 200 ∧
        (scanHandler apiKey req store now upstream jparse).response.body = none)) := by
  refine ⟨?_, ?_, ?_⟩
  · rw [healthHandler_headers]
    refine ⟨?_, ?_, ?_⟩ <;> decide
  · refine ⟨?_, ?_, ?_⟩ <;>
      exact scanHandler_headers_mem apiKey req store now upstream jparse _ (by decide)
  · intro hm
    constructor
    · simp [healthHandler, hm]
    · simp [scanHandler, hm]

/-- Witness for C9's preflight clause at a concrete OPTIONS request with no
credential configured. -/
theorem c9_cors_and_preflight_witness :
    ((healthHandler none ⟨"OPTIONS", none, none, none, none, none⟩).status = 200 ∧
      (healthHandler none ⟨"OPTIONS", none, none, none, none, none⟩).body = none) ∧
    ((scanHandler none ⟨"OPTIONS", none, none, none, none, none⟩ [] 0
        (.thrown "boom") (fun _ => .error "bad")).response.status = 200 ∧
      (scanHandler none ⟨"OPTIONS", none, none, none, none, none⟩ [] 0
        (.thrown "boom") (fun _ => .error "bad")).response.body = none) :=
  (c9_cors_and_preflight none ⟨"OPTIONS", none, none, none, none, none⟩ [] 0
    (.thrown "boom") (fun _ => .error "bad")).2.2 rfl

/-! ### C8: error-to-status mapping -/

theorem listHasPre_append_of (p : List Char) :
    ∀ l1 l2 : List Char, listHasPre p l1 = true → listHasPre p (l1 ++ l2) = true := by
  induction p with
  | nil => intro l1 l2 _; simp [listHasPre]
  | cons a t ih =>
    intro l1 l2 h
    cases l1 with
    | nil => simp [listHasPre] at h
    | cons b m =>
      simp only [listHasPre, Bool.and_eq_true, decide_eq_true_eq] at h
      simp only [List.cons_append, listHasPre, Bool.and_eq_true, decide_eq_true_eq]
      exact ⟨h.1, ih m l2 h.2⟩

theorem listContains_of_hasPre (pat l : List Char) (h : listHasPre pat l = true) :
    listContains pat l = true := by
  cases l with
  | nil => simpa [listContains] using h
  | cons c cs => simp [listContains, h]

theorem strContains_gemini (status : Nat) (bodyText : String) :
    strContains (geminiErrorMessage status bodyText) "Gemini API error" = true := by
  unfold strContains
  apply listContains_of_hasPre
  have hL : (geminiErrorMessage status bodyText).toList =
      "Gemini API error (".toList ++ ((toString status).toList ++
        ("): ".toList ++ (jsSubstring bodyText 200).toList)) := by
    simp [geminiErrorMessage, toList_append]
  rw [hL]
  exact listHasPre_append_of "Gemini API error".toList "Gemini API error (".toList _
    (by decide)

theorem jsSubstring_length_le (s : String) (n : Nat) : (jsSubstring s n).length ≤ n := by
  have h : (jsSubstring s n).length = (s.toList.take n).length := rfl
  rw [h, List.length_take]
  exact Nat.min_le_left _ _

/-- C8: exceptions escaping the upstream call are mapped by message: a
non-ok upstream status raises the upstream-error condition (message
carrying the status code and a body excerpt of at most 200 characters) and
yields 502 `External API error`; among thrown errors, a message containing
the upstream-error marker yields 502, otherwise one containing `fetch`
yields 500 `Network error`, and anything else the generic 500
`Internal server error`. -/
theorem c8_error_mapping (apiKey : Option String) (req : Request)
    (store : RateLimitStore) (now : Int)
    (jparse : String → Except String (List (String × Json)))
    (status : Nat) (bodyText : String) (m : String)
    (hkey : jsTruthyStr apiKey = true) (hmethod : req.method = "POST")
    (hnl : (isRateLimited now (getClientIp req) store).1 = false)
    (hvalid : (validateImagePayload req.imageBase64 req.mimeType).valid = true) :
    ((scanHandler apiKey req store now (.httpError status bodyText) jparse).response.status
        = 502 ∧
      (scanHandler apiKey req store now (.httpError status bodyText) jparse).response.body =
        some (.errorBody "External API error" (some (geminiErrorMessage status bodyText))) ∧
      (jsSubstring bodyText 200).length ≤ 200) ∧
    (strContains m "Gemini API error" = true →
      (scanHandler apiKey req store now (.thrown m) jparse).response.status = 502 ∧
      (scanHandler apiKey req store now (.thrown m) jparse).response.body =
        some (.errorBody "External API error" (some m))) ∧
    (strContains m "Gemini API error" = false → strContains m "fetch" = true →
      (scanHandler apiKey req store now (.thrown m) jparse).response.status = 500 ∧
      (scanHandler apiKey req store now (.thrown m) jparse).response.body =
        some (.errorBody "Network error" (some "Failed to connect to Gemini API"))) ∧
    (strContains m "Gemini API error" = false → strContains m "fetch" = false →
      (scanHandler apiKey req store now (.thrown m) jparse).response.status = 500 ∧
      (scanHandler apiKey req store now (.thrown m) jparse).response.body =
        some (.errorBody "Internal server error" (some "An unexpected error occurred"))) := by
  have heqH := scanHandler_proceed_eq apiKey req store now (.httpError status bodyText)
    jparse hkey hmethod hnl hvalid
  have heqT := scanHandler_proceed_eq apiKey req store now (.thrown m)
    jparse hkey hmethod hnl hvalid
  refine ⟨?_, ?_, ?_, ?_⟩
  · rw [heqH]
    simp [callGeminiVision, strContains_gemini, jsSubstring_length_le]
  · intro hg
    rw [heqT]
    simp [callGeminiVision, hg]
  · intro hg hf
    rw [heqT]
    simp [callGeminiVision, hg, hf]
  · intro hg hf
    rw [heqT]
    simp [callGeminiVision, hg, hf]

/-- Witness for C8 at a concrete upstream failure and a concrete thrown
network error. -/
theorem c8_error_mapping_witness :
    ((scanHandler (some "key")
        ⟨"POST", none, none, none, some "aGVsbG8=", some "image/jpeg"⟩
        [] 0 (.httpError 503 "service unavailable") (fun _ => .error "bad")).response.status
        = 502 ∧
      (scanHandler (some "key")
        ⟨"POST", none, none, none, some "aGVsbG8=", some "image/jpeg"⟩
        [] 0 (.httpError 503 "service unavailable") (fun _ => .error "bad")).response.body =
        some (.errorBody "External API error"
          (some (geminiErrorMessage 503 "service unavailable"))) ∧
      (jsSubstring "service unavailable" 200).length ≤ 200) ∧
    (strContains "TypeError: fetch failed" "Gemini API error" = true →
      (scanHandler (some "key")
        ⟨"POST", none, none, none, some "aGVsbG8=", some "image/jpeg"⟩
        [] 0 (.thrown "TypeError: fetch failed") (fun _ => .error "bad")).response.status
        = 502 ∧
      (scanHandler (some "key")
        ⟨"POST", none, none, none, some "aGVsbG8=", some "image/jpeg"⟩
        [] 0 (.thrown "TypeError: fetch failed") (fun _ => .error "bad")).response.body =
        some (.errorBody "External API error" (some "TypeError: fetch failed"))) ∧
    (strContains "TypeError: fetch failed" "Gemini API error" = false →
      strContains "TypeError: fetch failed" "fetch" = true →
      (scanHandler (some "key")
        ⟨"POST", none, none, none, some "aGVsbG8=", some "image/jpeg"⟩
        [] 0 (.thrown "TypeError: fetch failed") (fun _ => .error "bad")).response.status
        = 500 ∧
      (scanHandler (some "key")
        ⟨"POST", none, none, none, some "aGVsbG8=", some "image/jpeg"⟩
        [] 0 (.thrown "TypeError: fetch failed") (fun _ => .error "bad")).response.body =
        some (.errorBody "Network error" (some "Failed to connect to Gemini API"))) ∧
    (strContains "TypeError: fetch failed" "Gemini API error" = false →
      strContains "TypeError: fetch failed" "fetch" = false →
      (scanHandler (some "key")
        ⟨"POST", none, none, none, some "aGVsbG8=", some "image/jpeg"⟩
        [] 0 (.thrown "TypeError: fetch failed") (fun _ => .error "bad")).response.status
        = 500 ∧
      (scanHandler (some "key")
        ⟨"POST", none, none, none, some "aGVsbG8=", some "image/jpeg"⟩
        [] 0 (.thrown "TypeError: fetch failed") (fun _ => .error "bad")).response.body =
        some (.errorBody "Internal server error" (some "An unexpected error occurred"))) :=
  c8_error_mapping (some "key")
    ⟨"POST", none, none, none, some "aGVsbG8=", some "image/jpeg"⟩
    [] 0 (fun _ => .error "bad") 503 "service unavailable" "TypeError: fetch failed"
    (by decide) (by decide) (by decide)
    (by simp [validateImagePayload, stripDataUrlPre, dataUrlCapture, jsTruthyStr,
          allowedMimeTypes, listHasPre]
        rw [show ("aGVsbG8=".length = 8) from rfl]
        norm_num)

/-! ### C6: normalization never raises; fallback on any failure -/

theorem jsProp_error (j : Json) (k e : String) (h : jsProp j k = .error e) :
    e = "Cannot read properties of null" := by
  cases j <;> simp_all [jsProp]

theorem parseCore_error_ne
    (jparse : String → Except String (List (String × Json))) (resp : Json)
    (hne : ∀ s msg, jparse s = .error msg → msg ≠ "") (e : String)
    (hcore : parseGeminiResponseCore jparse resp = .error e) : e ≠ "" := by
  unfold parseGeminiResponseCore at hcore
  cases hj : jsProp resp "candidates" with
  | error e0 =>
    simp only [hj, Except.error.injEq] at hcore
    subst hcore
    rw [jsProp_error resp "candidates" e0 hj]
    decide
  | ok candidates =>
    simp only [hj] at hcore
    repeat' split at hcore
    all_goals first
      | exact Except.noConfusion hcore
      | (simp only [Except.error.injEq] at hcore; subst hcore; decide)
      | (simp only [Except.error.injEq] at hcore; subst hcore;
          exact hne _ _ (by assumption))

/-- C6: response normalization is total (`parseGeminiResponse` is a
function); whenever the extraction/parse pipeline fails - missing
candidates or parts, non-string text, no JSON object in the text, or a
`JSON.parse` failure - it returns exactly the fallback object
`{ detected: true, items: [], notes: "Model returned non-JSON output;
please confirm manually.", parseError: <nonempty message> }`, and the scan
handler still answers 200 with that result, not an HTTP error. -/
theorem c6_parse_failure_fallback
    (jparse : String → Except String (List (String × Json))) (resp : Json)
    (e : String) (apiKey : Option String) (req : Request)
    (store : RateLimitStore) (now : Int)
    (hne : ∀ s msg, jparse s = .error msg → msg ≠ "")
    (hcore : parseGeminiResponseCore jparse resp = .error e)
    (hkey : jsTruthyStr apiKey = true) (hmethod : req.method = "POST")
    (hnl : (isRateLimited now (getClientIp req) store).1 = false)
    (hvalid : (validateImagePayload req.imageBase64 req.mimeType).valid = true) :
    parseGeminiResponse jparse resp = geminiFallback e ∧
    geminiFallback e = Json.obj [("detected", Json.bool true), ("items", Json.arr []),
      ("notes", Json.str "Model returned non-JSON output; please confirm manually."),
      ("parseError", Json.str e)] ∧
    e ≠ "" ∧
    (scanHandler apiKey req store now (.ok resp) jparse).response.status = 200 ∧
    (scanHandler apiKey req store now (.ok resp) jparse).response.body =
      some (ResponseBody.scan (parseGeminiResponse jparse resp)) := by
  have heq := scanHandler_proceed_eq apiKey req store now (.ok resp) jparse hkey
    hmethod hnl hvalid
  refine ⟨?_, rfl, parseCore_error_ne jparse resp hne e hcore, ?_, ?_⟩
  · simp [parseGeminiResponse, hcore]
  · rw [heq]
    simp [callGeminiVision]
  · rw [heq]
    simp [callGeminiVision]

/-- Witness for C6: an upstream reply with no `candidates` field. -/
theorem c6_parse_failure_fallback_witness :
    parseGeminiResponse (fun _ => .error "bad") (Json.obj []) =
      geminiFallback "No candidates in Gemini response" ∧
    geminiFallback "No candidates in Gemini response" =
      Json.obj [("detected", Json.bool true), ("items", Json.arr []),
        ("notes", Json.str "Model returned non-JSON output; please confirm manually."),
        ("parseError", Json.str "No candidates in Gemini response")] ∧
    "No candidates in Gemini response" ≠ "" ∧
    (scanHandler (some "key")
      ⟨"POST", none, none, none, some "aGVsbG8=", some "image/jpeg"⟩
      [] 0 (.ok (Json.obj [])) (fun _ => .error "bad")).response.status = 200 ∧
    (scanHandler (some "key")
      ⟨"POST", none, none, none, some "aGVsbG8=", some "image/jpeg"⟩
      [] 0 (.ok (Json.obj [])) (fun _ => .error "bad")).response.body =
      some (ResponseBody.scan
        (parseGeminiResponse (fun _ => .error "bad") (Json.obj []))) :=
  c6_parse_failure_fallback (fun _ => .error "bad") (Json.obj [])
    "No candidates in Gemini response" (some "key")
    ⟨"POST", none, none, none, some "aGVsbG8=", some "image/jpeg"⟩ [] 0
    (by intro s msg h
        injection h with h2
        exact h2 ▸ (by decide))
    rfl (by decide) (by decide) (by decide)
    (by simp [validateImagePayload, stripDataUrlPre, dataUrlCapture, jsTruthyStr,
          allowedMimeTypes, listHasPre]
        rw [show ("aGVsbG8=".length = 8) from rfl]
        norm_num)
